import Mathlib

/-!
Verification of the wsep repository (coder/wsep): a WebSocket command
execution protocol.  Every definition below is a shallow embedding of a
function in the Go source, cited by file and line.  Bytes are modelled as
natural numbers, byte slices as lists of naturals, Go errors as Option
values, and nil Go interface values as Option.none.
-/

namespace Wsep

/-- A byte, modelled as a natural number (values are in 0..255 wherever a
concrete byte appears). -/
abbrev Byte := Nat

/-! ## Framing (src/internal/proto/protocol.go) -/

/-- The message delimiter, src/internal/proto/protocol.go:15: the LF byte
(0x0A) separating the JSON header from the binary body. -/
def delimiter : Byte := 10

/-- bytes.IndexRune specialized to the LF delimiter: the index of the first
LF byte of the slice, none when the slice holds no LF. -/
def indexOfLF : List Byte → Option Nat
  | [] => none
  | x :: rest =>
      if x = delimiter then some 0
      else (indexOfLF rest).map (fun i => i + 1)

/-- SplitMessage, src/internal/proto/protocol.go:19-28: split a frame at the
first LF.  When no LF exists the whole frame is the header and the body is
nil (here the empty list; Go's nil byte slice and the empty slice are
byte-identical, and the source's guard leaving body nil when the LF is the
final byte yields the same empty body). -/
def SplitMessage (b : List Byte) : List Byte × List Byte :=
  match indexOfLF b with
  | none => (b, [])
  | some ix => (b.take ix, b.drop (ix + 1))

/-- headerWriter.Write, src/internal/proto/protocol.go:52-59: the frame put
on the wire is the header, one LF byte, then the payload. -/
def headerWriterFrame (header b : List Byte) : List Byte :=
  header ++ delimiter :: b

/-- headerWriter.Write reports the number of payload bytes written, not the
number of wire bytes (src/internal/proto/protocol.go:58). -/
def headerWriterCount (b : List Byte) : Nat := b.length

/-! ## Client stdin splitting (src/client.go, second revision; identical in
src/unnamed/part_004) -/

/-- src/client.go:207 and src/unnamed/part_004:16: const maxMessageSize. -/
def maxMessageSize : Nat := 64000

/-- The 16 ASCII bytes of the compact JSON stdin header produced by
json.Marshal of proto.Header with Type "stdin" (src/client.go:306-310). -/
def stdinHeaderBytes : List Byte :=
  [123, 34, 116, 121, 112, 101, 34, 58, 34, 115, 116, 100, 105, 110, 34, 125]

/-- src/client.go:316: maxBodySize = maxMessageSize - len(headerByt) - 1. -/
def maxBodySize : Nat := maxMessageSize - stdinHeaderBytes.length - 1

/-- The chunking loop of remoteStdin.Write, src/client.go:317-329: while the
remaining payload exceeds maxMessageSize (note: the guard compares against
maxMessageSize, not maxBodySize), emit a chunk of maxBodySize bytes and
advance; the final Write sends whatever remains. -/
def stdinWriteChunks (b : List Byte) : List (List Byte) :=
  if h : maxMessageSize < b.length then
    b.take maxBodySize :: stdinWriteChunks (b.drop maxBodySize)
  else [b]
termination_by b.length
decreasing_by
  have hm : maxBodySize = 63983 := rfl
  have hM : maxMessageSize = 64000 := rfl
  simp only [List.length_drop]
  omega

/-- The wire frames emitted by one remoteStdin.Write call
(src/client.go:305-330): each chunk goes through the header-prefixing
writer. -/
def stdinWriteFrames (b : List Byte) : List (List Byte) :=
  (stdinWriteChunks b).map (headerWriterFrame stdinHeaderBytes)

/-! ## Message data (src/internal/proto/clientmsg.go, servermsg.go) and the
server dispatch loop (src/server.go) -/

/-- The Command object of src/internal/proto/clientmsg.go (mirrored by
wsep.Command in src/client.go:220-231). -/
structure Command where
  command : String
  args : List String
  stdin : Bool
  tty : Bool
  rows : Nat
  cols : Nat
  uid : Nat
  gid : Nat
  env : List String
  workingDir : String
deriving DecidableEq

/-- A decoded client message, by header type
(src/internal/proto/clientmsg.go TypeStart, TypeResize, TypeStdin,
TypeCloseStdin; anything else is unknown). -/
inductive ClientMsg
  | start (id : String) (cmd : Command)
  | resize (rows cols : Nat)
  | stdin (body : List Byte)
  | closeStdin
  | unknown (t : String)
deriving DecidableEq

/-- A server-to-client message (src/internal/proto/servermsg.go TypePid,
TypeStdout, TypeStderr, TypeExitCode). -/
inductive ServerMsg
  | pid (p : Nat)
  | stdout (body : List Byte)
  | stderr (body : List Byte)
  | exitCode (code : Int) (errMsg : String)
deriving DecidableEq

/-- True exactly on pid messages. -/
def isPidMsg : ServerMsg → Bool
  | .pid _ => true
  | _ => false

/-- True exactly on stdout and stderr messages. -/
def isOutputMsg : ServerMsg → Bool
  | .stdout _ => true
  | .stderr _ => true
  | _ => false

/-- True exactly on exit_code messages. -/
def isExitMsg : ServerMsg → Bool
  | .exitCode _ _ => true
  | _ => false

/-- Outcome of one iteration of the Serve dispatch loop for one incoming
message: continue with an updated process variable, return from the loop
with an error (fatal to the transport), or crash with a Go runtime panic. -/
inductive StepResult
  | next (process : Option Unit)
  | fail (msg : String)
  | nilPanic
deriving DecidableEq

/-- A method call on a Go interface value: when the interface is nil the
call panics at runtime (nil pointer dereference); otherwise the method
body runs. -/
def goInterfaceCall (p : Option Unit) (f : Unit → StepResult) : StepResult :=
  match p with
  | none => StepResult.nilPanic
  | some x => f x

/-- One iteration of the Serve dispatch switch, src/server.go:98-181.  The
process variable starts nil (none) and becomes non-nil only after a
successful start (line 128).  Branches:
start (99-152): reject when a process already exists (100-101), enforce
non-zero rows and cols for TTY commands (112-117), else start the process;
resize (154-167): explicit nil-process guard (155-157);
stdin (169-173): io.Copy(process.Stdin(), ...) with no nil-process guard;
close_stdin (174-178): process.Stdin().Close() with no nil-process guard;
any other type (179-180): logged and ignored. -/
def dispatch (process : Option Unit) (msg : ClientMsg) : StepResult :=
  match msg with
  | .start _ cmd =>
      if process ≠ none then .fail "command already started"
      else if cmd.tty ∧ (cmd.rows = 0 ∨ cmd.cols = 0) then
        .fail "rows and cols must be non-zero"
      else .next (some ())
  | .resize _ _ =>
      if process = none then .fail "resize sent before command started"
      else .next process
  | .stdin _ =>
      goInterfaceCall process (fun _ => .next process)
  | .closeStdin =>
      goInterfaceCall process (fun _ => .next process)
  | .unknown _ => .next process

/-- The per-start emission sequence of Serve, src/server.go:133-152: the pid
frame is sent (133) before the two output copier goroutines are launched
(138-144); the waiter goroutine emits the exit_code frame only after
outputgroup.Wait() returns, i.e. after both copiers have finished
(146-152), and emits nothing after it.  The copiers run concurrently, so
their frames appear in an arbitrary interleaving, passed here as outs. -/
def serverTrace (p : Nat) (outs : List ServerMsg) (code : Int)
    (errMsg : String) : List ServerMsg :=
  ServerMsg.pid p :: outs ++ [ServerMsg.exitCode code errMsg]

/-- An interleaving of two lists, modelling the arbitrary scheduling of the
stdout and stderr copier goroutines (src/server.go:138-144). -/
inductive Interleave : List ServerMsg → List ServerMsg → List ServerMsg → Prop
  | nil : Interleave [] [] []
  | left {x : ServerMsg} {xs ys zs : List ServerMsg} :
      Interleave xs ys zs → Interleave (x :: xs) ys (x :: zs)
  | right {y : ServerMsg} {xs ys zs : List ServerMsg} :
      Interleave xs ys zs → Interleave xs (y :: ys) (y :: zs)

/-! ## Exit code reporting (src/server.go:185-204) -/

/-- The error value returned by Process.Wait: either a wsep.ExitError
carrying a non-zero exit code (src/localexec.go:42-50) or some other error
(transport or context error). -/
inductive GoWaitError
  | exit (code : Int)
  | other (msg : String)
deriving DecidableEq

/-- Error() on a wait error.  ExitError.Error() is defined in the source as
the formatted string "process exited with code v". -/
def goErrorMessage : GoWaitError → String
  | .exit c => "process exited with code " ++ toString c
  | .other m => m

/-- proto.ServerExitCodeHeader (src/internal/proto/servermsg.go). -/
structure ServerExitCodeHeader where
  type : String
  exitCode : Int
  errorStr : String
deriving DecidableEq

/-- sendExitCode, src/server.go:185-198: exitCode starts at 0 and errorStr
empty; a non-nil error sets errorStr to err.Error(); an ExitError
additionally sets exitCode to the contained code. -/
def sendExitCodeHeader (err : Option GoWaitError) : ServerExitCodeHeader :=
  let errorStr :=
    match err with
    | none => ""
    | some e => goErrorMessage e
  let exitCode : Int :=
    match err with
    | some (.exit c) => c
    | _ => 0
  { type := "exit_code", exitCode := exitCode, errorStr := errorStr }

/-! ## Local process resize and close (src/localexec.go,
src/localexec_unix.go) -/

/-- What a Resize call does. -/
inductive ResizeOutcome
  | noop
  | setsizeOn (rows cols : Nat)
  | setsizeNilTTY (rows cols : Nat)
deriving DecidableEq

/-- localProcess.Resize, src/localexec.go:56-64: when l.tty is nil return
nil immediately; otherwise call pty.Setsize on the tty. -/
def localProcessResize (tty : Option Unit) (rows cols : Nat) : ResizeOutcome :=
  match tty with
  | none => .noop
  | some _ => .setsizeOn rows cols

/-- localProcess.Resize, src/localexec_unix.go:159-167: the guard is
l.tty == nil AND rows != 0 AND cols != 0; when it fails the code falls
through to pty.Setsize(l.tty, ...), which with a nil tty issues an ioctl
on an invalid descriptor and returns an error instead of nil. -/
def localProcessResizeUnix (tty : Option Unit) (rows cols : Nat) :
    ResizeOutcome :=
  if tty = none ∧ rows ≠ 0 ∧ cols ≠ 0 then .noop
  else
    match tty with
    | none => .setsizeNilTTY rows cols
    | some _ => .setsizeOn rows cols

/-- POSIX signals relevant to process termination. -/
inductive UnixSignal
  | sigterm
  | sigkill
deriving DecidableEq

/-- Go's os.Process.Kill: causes the process to exit immediately; on POSIX
it delivers SIGKILL, which cannot be caught for cooperative cleanup. -/
def osProcessKillSignal : UnixSignal := .sigkill

/-- localProcess.Close, src/localexec.go:52-54 (and the identical second
revision at 177-179): return l.cmd.Process.Kill(). -/
def localProcessCloseSignal : UnixSignal := osProcessKillSignal

/-! ## Session state machine (src/session.go) -/

/-- The State constants, src/session.go:19-30 (iota: 0, 1, 2, 3). -/
def StateStarting : Nat := 0

/-- StateReady, src/session.go:22-23. -/
def StateReady : Nat := 1

/-- StateClosing, src/session.go:24-26. -/
def StateClosing : Nat := 2

/-- StateDone, src/session.go:27-29. -/
def StateDone : Nat := 3

/-- The mutable fields of a Session guarded by its condition variable:
the state and the first error (src/session.go:40-41, 51-52). -/
structure SessionCore where
  state : Nat
  error : Option String
deriving DecidableEq

/-- Session.setState, src/session.go:346-360: a target state not greater
than the current state changes nothing; otherwise the error is recorded
only when none has been recorded yet, and the state advances. -/
def setState (s : SessionCore) (target : Nat) (err : Option String) :
    SessionCore :=
  if target ≤ s.state then s
  else
    { state := target
      error := if s.error = none then err else s.error }

/-- The state effect of Session.Close, src/session.go:301-304: it calls
setState(StateClosing, nil) and then only waits for StateDone (waiting
changes no state). -/
def sessionCloseStep (s : SessionCore) : SessionCore :=
  setState s StateClosing none

/-! ## Attach probe (src/server.go:348-389) -/

/-- src/server.go:349: context.WithTimeout(ctx, 10*time.Second) bounds the
probe loop that waits for the screen session to accept commands. -/
def probeTimeoutSeconds : Nat := 10

/-- How the probe goroutine of createSession ends
(src/server.go:352-379). -/
inductive ProbeOutcome
  | sessionGone
  | timedOut
  | startError (e : String)
  | success
deriving DecidableEq

/-- The value delivered on sess.ready by the probe goroutine,
src/server.go:352-379: none means the session became ready; a some value
is the fatal error observed by createSession, which blocks on sess.ready
(src/server.go:383-389) and fails the attach when the value is non-nil. -/
def probeReadyResult (id : String) : ProbeOutcome → Option String
  | .sessionGone => some ("session " ++ id ++ " is gone")
  | .timedOut => some ("timed out waiting for session " ++ id)
  | .startError e => some ("error waiting for session " ++ id ++ ": " ++ e)
  | .success => none

end Wsep

namespace Wsep

/-! ## Helper lemmas for framing -/

theorem indexOfLF_of_not_mem (f : List Byte) (hf : delimiter ∉ f) :
    indexOfLF f = none := by
  induction f with
  | nil => rfl
  | cons x t ih =>
      have hx : ¬(x = delimiter) := fun e => hf (by simp [e])
      have ht : delimiter ∉ t := fun m => hf (List.mem_cons_of_mem _ m)
      simp [indexOfLF, hx, ih ht]

theorem indexOfLF_append_cons (h b : List Byte) (hh : delimiter ∉ h) :
    indexOfLF (h ++ delimiter :: b) = some h.length := by
  induction h with
  | nil => simp [indexOfLF, delimiter]
  | cons x t ih =>
      have hx : ¬(x = delimiter) := fun e => hh (by simp [e])
      have ht : delimiter ∉ t := fun m => hh (List.mem_cons_of_mem _ m)
      simp [indexOfLF, hx, ih ht]

theorem take_append_cons (h : List Byte) (d : Byte) (b : List Byte) :
    (h ++ d :: b).take h.length = h := by
  induction h with
  | nil => rfl
  | cons x t ih => simpa using ih

theorem drop_append_cons_succ (h : List Byte) (d : Byte) (b : List Byte) :
    (h ++ d :: b).drop (h.length + 1) = b := by
  induction h with
  | nil => rfl
  | cons x t ih => simpa using ih

/-- C2: frame round-trip.  Encoding any header that contains no LF byte
(every compact JSON header: json.Marshal escapes control characters) with
any body, including bodies containing LF bytes, and decoding with
SplitMessage returns the same header and a byte-identical body; only the
first LF of the frame is the separator.  A frame containing no LF decodes
to the entire frame as the header with an empty body. -/
theorem frame_roundtrip (h b f : List Byte)
    (hh : delimiter ∉ h) (hf : delimiter ∉ f) :
    SplitMessage (headerWriterFrame h b) = (h, b) ∧
    SplitMessage f = (f, []) := by
  constructor
  · unfold SplitMessage headerWriterFrame
    rw [indexOfLF_append_cons h b hh]
    dsimp only
    rw [take_append_cons, drop_append_cons_succ]
  · unfold SplitMessage
    rw [indexOfLF_of_not_mem f hf]

/-- Witness for C2 at a concrete input: the 16-byte stdin JSON header with a
body that itself contains an LF byte, and an LF-free one-byte frame. -/
theorem frame_roundtrip_witness :
    delimiter ∉ stdinHeaderBytes ∧ delimiter ∉ ([120] : List Byte) ∧
    SplitMessage (headerWriterFrame stdinHeaderBytes [65, 10, 66]) =
      (stdinHeaderBytes, [65, 10, 66]) ∧
    SplitMessage [120] = ([120], []) := by
  refine ⟨by decide, by decide, ?_, ?_⟩
  · exact (frame_roundtrip stdinHeaderBytes [65, 10, 66] [120]
      (by decide) (by decide)).1
  · exact (frame_roundtrip stdinHeaderBytes [65, 10, 66] [120]
      (by decide) (by decide)).2

/-! ## Server message ordering (C1) -/

theorem getLast?_cons_concat (a b : ServerMsg) (l : List ServerMsg) :
    (a :: (l ++ [b])).getLast? = some b := by
  induction l generalizing a with
  | nil => rfl
  | cons x t ih => exact ih x

theorem interleave_mem {xs ys zs : List ServerMsg} (h : Interleave xs ys zs) :
    ∀ z ∈ zs, z ∈ xs ∨ z ∈ ys := by
  induction h with
  | nil => intro z hz; cases hz
  | left h ih =>
      intro z hz
      rcases List.mem_cons.mp hz with rfl | hz
      · exact Or.inl (List.mem_cons_self _ _)
      · rcases ih z hz with hx | hy
        · exact Or.inl (List.mem_cons_of_mem _ hx)
        · exact Or.inr hy
  | right h ih =>
      intro z hz
      rcases List.mem_cons.mp hz with rfl | hz
      · exact Or.inr (List.mem_cons_self _ _)
      · rcases ih z hz with hx | hy
        · exact Or.inl hx
        · exact Or.inr (List.mem_cons_of_mem _ hy)

theorem interleave_output_flags {os es : List (List Byte)}
    {outs : List ServerMsg}
    (h : Interleave (os.map ServerMsg.stdout) (es.map ServerMsg.stderr) outs) :
    ∀ z ∈ outs, isPidMsg z = false ∧ isExitMsg z = false := by
  intro z hz
  rcases interleave_mem h z hz with hx | hy
  · rcases List.mem_map.mp hx with ⟨w, _, rfl⟩
    exact ⟨rfl, rfl⟩
  · rcases List.mem_map.mp hy with ⟨w, _, rfl⟩
    exact ⟨rfl, rfl⟩

/-- C1: on a single transport the server emits exactly one pid message, the
pid message precedes every stdout and stderr message, and exit_code is
emitted exactly once, as the final server message; nothing follows it.
Quantified over all process ids, exit codes, error strings, stdout and
stderr chunk sequences, and every interleaving of the two copier
goroutines. -/
theorem serve_message_order (p : Nat) (code : Int) (errMsg : String)
    (os es : List (List Byte)) (outs : List ServerMsg)
    (h : Interleave (os.map ServerMsg.stdout) (es.map ServerMsg.stderr) outs) :
    (serverTrace p outs code errMsg).countP isPidMsg = 1 ∧
    (serverTrace p outs code errMsg).head? = some (ServerMsg.pid p) ∧
    (∀ i (hi : i < (serverTrace p outs code errMsg).length),
        isOutputMsg ((serverTrace p outs code errMsg).get ⟨i, hi⟩) = true →
          0 < i) ∧
    (serverTrace p outs code errMsg).countP isExitMsg = 1 ∧
    (serverTrace p outs code errMsg).getLast? =
      some (ServerMsg.exitCode code errMsg) := by
  have hall := interleave_output_flags h
  have hpid0 : outs.countP isPidMsg = 0 :=
    List.countP_eq_zero.mpr (fun a ha => by simp [(hall a ha).1])
  have hexit0 : outs.countP isExitMsg = 0 :=
    List.countP_eq_zero.mpr (fun a ha => by simp [(hall a ha).2])
  refine ⟨?_, rfl, ?_, ?_, ?_⟩
  · simp [serverTrace, List.countP_cons, List.countP_append, hpid0,
      isPidMsg, isExitMsg]
  · intro i hi hout
    cases i with
    | zero => simp [serverTrace, isOutputMsg] at hout
    | succ n => exact Nat.succ_pos n
  · simp [serverTrace, List.countP_cons, List.countP_append, hexit0,
      isPidMsg, isExitMsg]
  · exact getLast?_cons_concat _ _ _

/-- Witness for C1 at a concrete run: pid 42, one stdout chunk, one stderr
chunk, exit code 0. -/
theorem serve_message_order_witness :
    Interleave ([[1]].map ServerMsg.stdout) ([[2]].map ServerMsg.stderr)
        [ServerMsg.stdout [1], ServerMsg.stderr [2]] ∧
    ((serverTrace 42 [ServerMsg.stdout [1], ServerMsg.stderr [2]] 0
        "").countP isPidMsg = 1 ∧
      (serverTrace 42 [ServerMsg.stdout [1], ServerMsg.stderr [2]] 0
        "").head? = some (ServerMsg.pid 42) ∧
      (∀ i (hi : i < (serverTrace 42
          [ServerMsg.stdout [1], ServerMsg.stderr [2]] 0 "").length),
          isOutputMsg ((serverTrace 42
            [ServerMsg.stdout [1], ServerMsg.stderr [2]] 0 "").get ⟨i, hi⟩)
            = true → 0 < i) ∧
      (serverTrace 42 [ServerMsg.stdout [1], ServerMsg.stderr [2]] 0
        "").countP isExitMsg = 1 ∧
      (serverTrace 42 [ServerMsg.stdout [1], ServerMsg.stderr [2]] 0
        "").getLast? = some (ServerMsg.exitCode 0 "")) := by
  have hint : Interleave ([[1]].map ServerMsg.stdout)
      ([[2]].map ServerMsg.stderr)
      [ServerMsg.stdout [1], ServerMsg.stderr [2]] :=
    Interleave.left (Interleave.right Interleave.nil)
  exact ⟨hint, serve_message_order 42 0 "" [[1]] [[2]] _ hint⟩

/-! ## Stdin frame splitting (C3) -/

theorem stdinWriteChunks_step (b : List Byte)
    (h : maxMessageSize < b.length) :
    stdinWriteChunks b =
      b.take maxBodySize :: stdinWriteChunks (b.drop maxBodySize) := by
  rw [stdinWriteChunks]
  rw [dif_pos h]

theorem stdinWriteChunks_last (b : List Byte)
    (h : ¬maxMessageSize < b.length) :
    stdinWriteChunks b = [b] := by
  rw [stdinWriteChunks]
  rw [dif_neg h]

theorem headerWriterFrame_length (hd b : List Byte) :
    (headerWriterFrame hd b).length = hd.length + b.length + 1 := by
  simp [headerWriterFrame]
  omega

theorem stdinWriteChunks_127967 :
    stdinWriteChunks (List.replicate 127967 (0 : Byte)) =
      [List.replicate 63983 (0 : Byte), List.replicate 63984 (0 : Byte)] := by
  have hbody : maxBodySize = 63983 := rfl
  have hmin : min 63983 127967 = 63983 := by norm_num
  have hsub : 127967 - 63983 = 63984 := by norm_num
  rw [stdinWriteChunks_step _ (by rw [List.length_replicate]; decide)]
  rw [hbody, List.take_replicate, List.drop_replicate, hmin, hsub]
  rw [stdinWriteChunks_last _ (by rw [List.length_replicate]; decide)]

/-- C3: evaluation of remoteStdin.Write on a 127,967-byte payload, which
exceeds the 64,000-byte frame limit.  The loop guard compares the
remaining length against maxMessageSize instead of maxBodySize, so the
final chunk carries 63,984 bytes and its wire frame is 64,001 bytes,
exceeding the 64,000-byte limit the claim (and the peer's read limit)
requires; the concatenation of the chunk bodies does equal the original
payload. -/
theorem stdin_write_oversized_frame :
    (stdinWriteFrames (List.replicate 127967 (0 : Byte))).map List.length =
      [64000, 64001] ∧
    (stdinWriteChunks (List.replicate 127967 (0 : Byte))).join =
      List.replicate 127967 (0 : Byte) := by
  have hjoin : ∀ (a b : List Byte), List.join [a, b] = a ++ b := by
    intro a b
    simp [List.join]
  have hadd : 63983 + 63984 = 127967 := by norm_num
  have hlen : stdinHeaderBytes.length = 16 := rfl
  constructor
  · rw [stdinWriteFrames, stdinWriteChunks_127967]
    simp only [List.map_cons, List.map_nil]
    rw [headerWriterFrame_length, headerWriterFrame_length]
    rw [List.length_replicate, List.length_replicate, hlen]
  · rw [stdinWriteChunks_127967, hjoin, ← List.replicate_add, hadd]

/-! ## Exit code fields (C4) -/

/-- C4: the exit_code message built after Process.Wait:  a nil wait error
yields exit_code 0 and an empty error field; a wsep.ExitError yields the
contained code; any other error yields exit_code 0 with the error field
carrying that error's message. -/
theorem send_exit_code_fields (c : Int) (m : String) :
    sendExitCodeHeader none = ⟨"exit_code", 0, ""⟩ ∧
    (sendExitCodeHeader (some (GoWaitError.exit c))).exitCode = c ∧
    (sendExitCodeHeader (some (GoWaitError.other m))).exitCode = 0 ∧
    (sendExitCodeHeader (some (GoWaitError.other m))).errorStr = m :=
  ⟨rfl, rfl, rfl, rfl⟩

/-! ## Dispatch protocol errors (C5) and the missing stdin guard (C10) -/

/-- C5: the Serve dispatch loop treats a second start message after a
process has already started as a fatal protocol error (the iteration
returns the error "command already started" and starts no second
process), and treats a resize message received before any start as the
fatal protocol error "resize sent before command started". -/
theorem serve_rejects_second_start_and_early_resize (sid : String)
    (cmd : Command) (r c : Nat) :
    dispatch (some ()) (ClientMsg.start sid cmd) =
      StepResult.fail "command already started" ∧
    dispatch none (ClientMsg.resize r c) =
      StepResult.fail "resize sent before command started" := by
  constructor
  · simp [dispatch]
  · simp [dispatch]

/-- C10: a stdin or close_stdin frame received before any start makes the
dispatch loop call Stdin() on the still-nil process interface, a runtime
nil dereference (crash), unlike the resize branch whose nil-process guard
returns a protocol error. -/
theorem serve_stdin_before_start_crashes (body : List Byte) (r c : Nat) :
    dispatch none (ClientMsg.stdin body) = StepResult.nilPanic ∧
    dispatch none ClientMsg.closeStdin = StepResult.nilPanic ∧
    dispatch none (ClientMsg.resize r c) =
      StepResult.fail "resize sent before command started" := by
  refine ⟨rfl, rfl, by simp [dispatch]⟩

/-! ## Resize with a nil tty (C6) -/

/-- C6: evaluation of Resize at the failing input (pty absent, rows = 0).
The localexec_unix.go revision falls through its guard and calls
pty.Setsize on the nil tty instead of returning nil, while the
localexec.go revision is a no-op for all rows and cols as the claim
states. -/
theorem resize_nil_tty_divergence :
    localProcessResizeUnix none 0 80 = ResizeOutcome.setsizeNilTTY 0 80 ∧
    localProcessResize none 0 80 = ResizeOutcome.noop ∧
    ∀ r c, localProcessResize none r c = ResizeOutcome.noop := by
  refine ⟨by decide, rfl, fun r c => rfl⟩

/-! ## Close signal (C7) -/

/-- C7: localProcess.Close calls cmd.Process.Kill, which delivers SIGKILL,
an immediate forced kill; it does not send the cooperative SIGTERM the
claim (and the source's own comments at src/server.go:320 and
src/session.go:109) describe. -/
theorem close_sends_sigkill :
    localProcessCloseSignal = UnixSignal.sigkill ∧
    localProcessCloseSignal ≠ UnixSignal.sigterm := by
  decide

/-! ## Session state machine (C8) -/

/-- C8: the session state only moves forward: a setState call whose target
state is not greater than the current one changes nothing (state and
recorded error both unchanged); no call ever lowers the state; the first
recorded error is preserved by every later transition; and the state
effect of Close on a session already in StateDone is a no-op that leaves
the session in StateDone. -/
theorem session_state_machine :
    (∀ s t e, t ≤ s.state → setState s t e = s) ∧
    (∀ s t e, s.state ≤ (setState s t e).state) ∧
    (∀ s t e m, s.error = some m → (setState s t e).error = some m) ∧
    (∀ s, s.state = StateDone →
      sessionCloseStep s = s ∧ (sessionCloseStep s).state = StateDone) := by
  refine ⟨?_, ?_, ?_, ?_⟩
  · intro s t e h
    simp [setState, h]
  · intro s t e
    unfold setState
    split
    · exact le_refl _
    · simp only
      omega
  · intro s t e m h
    unfold setState
    split
    · exact h
    · simp [h]
  · intro s h
    have hle : StateClosing ≤ s.state := by
      rw [h]
      decide
    have heq : sessionCloseStep s = s := by
      simp [sessionCloseStep, setState, hle]
    exact ⟨heq, by rw [heq, h]⟩

/-- Witness for C8 at concrete states: a Done session with a recorded
error absorbs a Closing transition; a Ready session with a recorded error
keeps it across a transition; Close on a Done session is a no-op. -/
theorem session_state_machine_witness :
    (StateClosing ≤ (⟨StateDone, some "boom"⟩ : SessionCore).state ∧
      setState ⟨StateDone, some "boom"⟩ StateClosing none =
        ⟨StateDone, some "boom"⟩) ∧
    ((⟨StateReady, some "boom"⟩ : SessionCore).error = some "boom" ∧
      (setState ⟨StateReady, some "boom"⟩ StateClosing none).error =
        some "boom") ∧
    ((⟨StateDone, none⟩ : SessionCore).state = StateDone ∧
      sessionCloseStep ⟨StateDone, none⟩ = ⟨StateDone, none⟩) := by
  refine ⟨⟨by decide, session_state_machine.1 _ _ _ (by decide)⟩,
    ⟨rfl, session_state_machine.2.2.1 _ StateClosing none _ rfl⟩,
    ⟨rfl, (session_state_machine.2.2.2 _ rfl).1⟩⟩

/-! ## Attach probe timeout (C9) -/

/-- C9 counterexample: the probe loop deadline in createSession is 10
seconds, not about 30 seconds as the claim states. -/
theorem probe_timeout_not_thirty :
    probeTimeoutSeconds = 10 ∧
    ¬(25 ≤ probeTimeoutSeconds ∧ probeTimeoutSeconds ≤ 35) := by
  decide

/-- C9 amended: the probe loop waiting for a reconnectable session is
bounded by a 10-second timeout, and when it expires the attach fails with
the fatal error "timed out waiting for session " followed by the session
id, delivered to the caller blocked on readiness. -/
theorem probe_timeout_amended (id : String) :
    probeTimeoutSeconds = 10 ∧
    probeReadyResult id ProbeOutcome.timedOut =
      some ("timed out waiting for session " ++ id) :=
  ⟨rfl, rfl⟩

end Wsep
